import Mathlib

/-!
Verification development for the order-fulfillment engine
(Sistema-ERP-Gestao-de-Pedidos).

The Python sources are shallowly embedded as pure Lean functions:

* src/orders/domain/value_objects.py   -> OrderStatus, valid_transitions,
  can_transition_to
* src/orders/domain/entities.py        -> OrderItemEntity, OrderEntity
* src/products/domain/entities.py      -> ProductEntity
* src/customers/domain/entities.py     -> CustomerEntity
* src/products/repositories/product_repository.py -> get_by_ids_for_update,
  update_stock
* src/orders/repositories/order_repository.py -> order_repo_create,
  order_repo_get_by_id, order_repo_to_entity, order_repo_update_status
* src/orders/services/order_service.py -> create_order, cancel_order
* src/shared/middleware/idempotency.py -> idempotency_middleware_call

The relational store is embedded as an explicit record of row lists (DB);
Django transaction.atomic is embedded by running the transaction body on the
state and discarding the produced state whenever the body signals an error
(exceptions roll the transaction back).  Decimal money amounts are embedded
as rationals, timestamps are dropped, and the soft-delete marker
(deleted_at IS NOT NULL) is embedded as a Boolean flag.  Python message
strings are transliterated to plain ASCII.
-/

/-- Embedding of OrderStatus (src/orders/domain/value_objects.py, lines 9-24). -/
inductive OrderStatus where
  | pending
  | confirmed
  | separated
  | shipped
  | delivered
  | cancelled
deriving DecidableEq, Fintype

/-- String value of each status, as declared by the Python enum. -/
def OrderStatus.value : OrderStatus → String
  | .pending => "pending"
  | .confirmed => "confirmed"
  | .separated => "separated"
  | .shipped => "shipped"
  | .delivered => "delivered"
  | .cancelled => "cancelled"

/-- Embedding of OrderStatus.valid_transitions (value_objects.py, lines 26-36). -/
def OrderStatus.valid_transitions : OrderStatus → List OrderStatus
  | .pending => [.confirmed, .cancelled]
  | .confirmed => [.separated, .cancelled]
  | .separated => [.shipped]
  | .shipped => [.delivered]
  | .delivered => []
  | .cancelled => []

/-- Embedding of OrderStatus.can_transition_to (value_objects.py, lines 38-40):
membership of the target in the valid-transition list of the current status. -/
def OrderStatus.can_transition_to (s t : OrderStatus) : Bool :=
  (s.valid_transitions).contains t

/-- Embedding of ProductEntity (src/products/domain/entities.py, lines 12-28);
the deleted flag stands for deleted_at IS NOT NULL, timestamps are dropped. -/
structure ProductEntity where
  id : Nat
  sku : String
  name : String
  description : String
  price : Rat
  stock_quantity : Int
  is_active : Bool
  deleted : Bool
deriving DecidableEq

/-- Embedding of CustomerEntity (src/customers/domain/entities.py, lines 11-27). -/
structure CustomerEntity where
  id : Nat
  name : String
  email : String
  cpf_cnpj : String
  is_active : Bool
  deleted : Bool
deriving DecidableEq

/-- Embedding of OrderItemEntity (src/orders/domain/entities.py, lines 15-25). -/
structure OrderItemEntity where
  id : Option Nat
  order_id : Option Nat
  product_id : Nat
  product_sku : String
  product_name : String
  quantity : Int
  unit_price : Rat
deriving DecidableEq

/-- Embedding of OrderItemEntity.subtotal (entities.py, lines 27-30). -/
def OrderItemEntity.subtotal (i : OrderItemEntity) : Rat :=
  i.unit_price * i.quantity

/-- Embedding of OrderEntity (src/orders/domain/entities.py, lines 33-48).
Note the dataclass has NO order_number field; its fields are exactly
id, customer_id, customer_name, status, items, notes, created_at,
updated_at, deleted_at (timestamps dropped here, deleted_at kept as flag). -/
structure OrderEntity where
  id : Option Nat
  customer_id : Nat
  customer_name : String
  status : OrderStatus
  items : List OrderItemEntity
  notes : String
  deleted : Bool
deriving DecidableEq

/-- Embedding of OrderEntity.total (entities.py, lines 54-57). -/
def OrderEntity.total (o : OrderEntity) : Rat :=
  (o.items.map OrderItemEntity.subtotal).sum

/-- Embedding of OrderEntity.validate (entities.py, lines 99-110).
Python truthiness: "if not self.customer_id" fires exactly on customer_id = 0. -/
def OrderEntity.validate (o : OrderEntity) : List String :=
  (if o.customer_id = 0 then ["O cliente e obrigatorio."] else [])
  ++ (if o.items.isEmpty then ["O pedido deve ter pelo menos um item."] else [])
  ++ (o.items.flatMap (fun it =>
        (if it.quantity ≤ 0 then
          ["Quantidade invalida para o produto " ++ it.product_sku ++ "."] else [])
        ++ (if it.unit_price ≤ 0 then
          ["Preco invalido para o produto " ++ it.product_sku ++ "."] else [])))

/-- Order row as persisted by orders.models.Order (src/orders/models.py). -/
structure OrderRow where
  id : Nat
  order_number : String
  customer_id : Nat
  status : OrderStatus
  notes : String
  deleted : Bool
deriving DecidableEq

/-- Order item row as persisted by orders.models.OrderItem. -/
structure OrderItemRow where
  id : Nat
  order_id : Nat
  product_id : Nat
  product_sku : String
  product_name : String
  quantity : Int
  unit_price : Rat
deriving DecidableEq

/-- Status-history row as persisted by orders.models.OrderHistory. -/
structure OrderHistoryRow where
  order_id : Nat
  from_status : String
  to_status : String
  changed_by : String
  notes : String
deriving DecidableEq

/-- The backing relational store: one list of rows per table, plus the
autoincrement counters used when inserting orders and order items. -/
structure DB where
  products : List ProductEntity
  customers : List CustomerEntity
  orders : List OrderRow
  order_items : List OrderItemRow
  order_history : List OrderHistoryRow
  next_order_id : Nat
  next_item_id : Nat
deriving DecidableEq

/-- Errors raised by the embedded code.  The first four mirror the exception
classes of src/shared/exceptions/domain_exceptions.py (InsufficientStock and
InvalidStateTransition are kept as separate constructors because they are
distinct Python classes); typeError embeds a Python TypeError. -/
inductive ServiceError where
  | entityNotFound (entity : String) (entityId : Nat)
  | businessRuleViolation (message : String)
  | insufficientStock (product_sku : String) (requested : Int) (available : Int)
  | invalidStateTransition (current_status : String) (target_status : String)
  | typeError (message : String)
deriving DecidableEq

/-- Ordering relation used by ORDER BY id. -/
def prodLE (a b : ProductEntity) : Prop := a.id ≤ b.id

instance : DecidableRel prodLE := fun a b => Nat.decLe a.id b.id

instance : IsTotal ProductEntity prodLE := ⟨fun a b => Nat.le_total a.id b.id⟩

instance : IsTrans ProductEntity prodLE := ⟨fun _ _ _ h1 h2 => Nat.le_trans h1 h2⟩

/-- Embedding of ProductRepository.get_by_ids_for_update
(src/products/repositories/product_repository.py, lines 51-63): the active
(non-soft-deleted) rows whose id is in the requested list, ordered by id. -/
def get_by_ids_for_update (products : List ProductEntity) (ids : List Nat) :
    List ProductEntity :=
  List.insertionSort prodLE
    ((products.filter (fun p => !p.deleted)).filter (fun p => ids.contains p.id))

/-- Embedding of ProductRepository.update_stock (product_repository.py,
lines 107-112): UPDATE products SET stock_quantity = q WHERE id = pid AND
deleted_at IS NULL. -/
def update_stock (db : DB) (pid : Nat) (q : Int) : DB :=
  { db with
    products := db.products.map (fun p =>
      if p.id == pid && !p.deleted then { p with stock_quantity := q } else p) }

/-- Embedding of CustomerRepository.get_by_id
(src/customers/repositories/customer_repository.py, lines 38-43). -/
def customer_get_by_id (db : DB) (cid : Nat) : Option CustomerEntity :=
  (db.customers.filter (fun c => !c.deleted)).find? (fun c => c.id == cid)

/-- Field names of the OrderEntity dataclass
(src/orders/domain/entities.py, lines 33-48). -/
def order_entity_field_names : List String :=
  ["id", "customer_id", "customer_name", "status", "items", "notes",
   "created_at", "updated_at", "deleted_at"]

/-- Keyword arguments passed to OrderEntity by OrderRepository._to_entity
(src/orders/repositories/order_repository.py, lines 33-44). -/
def order_repo_to_entity_kwargs : List String :=
  ["id", "order_number", "customer_id", "customer_name", "status", "items",
   "notes", "created_at", "updated_at", "deleted_at"]

/-- Embedding of OrderRepository._to_entity (order_repository.py, lines
19-44).  A Python dataclass call raises TypeError when it receives a keyword
that is not one of its fields, so the construction succeeds only when every
keyword passed at lines 33-44 is a field of OrderEntity. -/
def order_repo_to_entity (db : DB) (row : OrderRow) :
    Except ServiceError OrderEntity :=
  let items := (db.order_items.filter (fun r => r.order_id == row.id)).map
    (fun r =>
      ({ id := some r.id, order_id := some r.order_id,
         product_id := r.product_id, product_sku := r.product_sku,
         product_name := r.product_name, quantity := r.quantity,
         unit_price := r.unit_price } : OrderItemEntity))
  if order_repo_to_entity_kwargs.all (fun k => order_entity_field_names.contains k) then
    .ok { id := some row.id, customer_id := row.customer_id,
          customer_name :=
            (((db.customers.find? (fun c => c.id == row.customer_id)).map
              (fun c => c.name)).getD ""),
          status := row.status, items := items, notes := row.notes,
          deleted := row.deleted }
  else
    .error (.typeError "OrderEntity got an unexpected keyword argument order_number")

/-- Embedding of OrderRepository.get_by_id (order_repository.py, lines
49-58): the non-soft-deleted row with the given id, mapped through
_to_entity; None when absent. -/
def order_repo_get_by_id (db : DB) (oid : Nat) :
    Except ServiceError (Option OrderEntity) :=
  match (db.orders.filter (fun o => !o.deleted)).find? (fun o => o.id == oid) with
  | none => .ok none
  | some row => (order_repo_to_entity db row).map some

/-- Embedding of Order._generate_order_number (src/orders/models.py, lines
74-77); the uuid suffix is embedded deterministically from the row id. -/
def gen_order_number (oid : Nat) : String := "PED-" ++ toString oid

/-- Embedding of OrderRepository.create (order_repository.py, lines 86-112):
insert the order row, one row per item, the creation history entry, then
return get_by_id of the fresh row. -/
def order_repo_create (db : DB) (ent : OrderEntity) :
    Except ServiceError (OrderEntity × DB) :=
  let oid := db.next_order_id
  let row : OrderRow :=
    { id := oid, order_number := gen_order_number oid,
      customer_id := ent.customer_id, status := ent.status,
      notes := ent.notes, deleted := false }
  let itemRows := ent.items.enum.map (fun ki =>
    ({ id := db.next_item_id + ki.1, order_id := oid,
       product_id := ki.2.product_id, product_sku := ki.2.product_sku,
       product_name := ki.2.product_name, quantity := ki.2.quantity,
       unit_price := ki.2.unit_price } : OrderItemRow))
  let hist : OrderHistoryRow :=
    { order_id := oid, from_status := "",
      to_status := OrderStatus.pending.value, changed_by := "system",
      notes := "Pedido criado." }
  let db2 : DB :=
    { db with
      orders := db.orders ++ [row]
      order_items := db.order_items ++ itemRows
      order_history := db.order_history ++ [hist]
      next_order_id := oid + 1
      next_item_id := db.next_item_id + ent.items.length }
  match order_repo_get_by_id db2 oid with
  | .error e => .error e
  | .ok none => .error (.typeError "NoneType returned for freshly created order")
  | .ok (some o) => .ok (o, db2)

/-- Embedding of OrderRepository.update_status (order_repository.py, lines
114-132): set the order status and append one history row; returns False
(leaving the state unchanged) when the order is absent or soft-deleted. -/
def order_repo_update_status (db : DB) (oid : Nat) (new_status : OrderStatus)
    (notes : String) (changed_by : String) : Bool × DB :=
  match (db.orders.filter (fun o => !o.deleted)).find? (fun o => o.id == oid) with
  | none => (false, db)
  | some row =>
    (true,
     { db with
       orders := db.orders.map (fun o =>
         if o.id == oid && !o.deleted then { o with status := new_status } else o)
       order_history := db.order_history ++
         [{ order_id := oid, from_status := row.status.value,
            to_status := new_status.value, changed_by := changed_by,
            notes := notes }] })

/-- Input shape of one order item as accepted by OrderService.create_order
(validated upstream by OrderItemInputSerializer, which enforces
quantity >= 1). -/
structure ItemData where
  product_id : Nat
  quantity : Int
deriving DecidableEq

/-- Input shape of OrderService.create_order
(src/orders/services/order_service.py, lines 44-59). -/
structure CreateOrderData where
  customer_id : Nat
  items : List ItemData
  notes : String
deriving DecidableEq

/-- The locked snapshots fetched at order_service.py lines 78-81: SELECT FOR
UPDATE over the distinct requested product ids, ordered by id. -/
def lockedFor (db : DB) (d : CreateOrderData) : List ProductEntity :=
  get_by_ids_for_update db.products (d.items.map (fun i => i.product_id))

/-- Embedding of the existence loop of create_order (order_service.py, lines
86-90): the first item whose product id is not a key of the product map
raises EntityNotFound for that product id. -/
def checkProductsExist (pm : List ProductEntity) :
    List ItemData → Except ServiceError Unit
  | [] => .ok ()
  | i :: rest =>
    if (pm.find? (fun p => p.id == i.product_id)).isSome then
      checkProductsExist pm rest
    else
      .error (.entityNotFound "Produto" i.product_id)

/-- Embedding of the check-and-deduct loop of create_order (order_service.py,
lines 92-122).  The Python dict product_map holds the one mutable
ProductEntity object per product id, so deduct_stock on an item mutates the
snapshot seen by later items with the same product; this is embedded by
threading the updated snapshot list pm.  Each successful iteration also
persists the new quantity through update_stock. -/
def checkAndDeductItems :
    List ProductEntity → DB → List ItemData →
    Except ServiceError (List OrderItemEntity × DB)
  | _, db, [] => .ok ([], db)
  | pm, db, i :: rest =>
    match pm.find? (fun p => p.id == i.product_id) with
    | none => .error (.typeError "KeyError")
    | some product =>
      if !product.is_active then
        .error (.businessRuleViolation
          ("O produto " ++ product.sku ++ " esta inativo."))
      else if product.stock_quantity < i.quantity then
        .error (.insufficientStock product.sku i.quantity product.stock_quantity)
      else
        let updated := { product with
          stock_quantity := product.stock_quantity - i.quantity }
        let pm2 := pm.map (fun p => if p.id == product.id then updated else p)
        let db2 := update_stock db product.id updated.stock_quantity
        match checkAndDeductItems pm2 db2 rest with
        | .error e => .error e
        | .ok (restItems, db3) =>
          .ok (({ id := none, order_id := none, product_id := product.id,
                  product_sku := product.sku, product_name := product.name,
                  quantity := i.quantity, unit_price := product.price }
                  : OrderItemEntity) :: restItems, db3)

/-- Embedding of the transaction body of create_order (order_service.py,
lines 77-138): lock, check existence, check-and-deduct, build and validate
the OrderEntity, persist via the order repository.  Any error aborts the
body; the caller rolls the state back. -/
def create_order_tx (db : DB) (customer : CustomerEntity) (d : CreateOrderData) :
    Except ServiceError (OrderEntity × DB) :=
  let locked := lockedFor db d
  match checkProductsExist locked d.items with
  | .error e => .error e
  | .ok _ =>
    match checkAndDeductItems locked db d.items with
    | .error e => .error e
    | .ok (order_items, db2) =>
      let ent : OrderEntity :=
        { id := none, customer_id := d.customer_id,
          customer_name := customer.name, status := .pending,
          items := order_items, notes := d.notes, deleted := false }
      if !ent.validate.isEmpty then
        .error (.businessRuleViolation (String.intercalate " | " ent.validate))
      else
        order_repo_create db2 ent

/-- Embedding of OrderService.create_order (order_service.py, lines 44-154):
customer checks, empty-items check, then the atomic transaction; an error in
the transaction body rolls every mutation back, so the pre-call state is
returned alongside the error. -/
def create_order (db : DB) (d : CreateOrderData) :
    Except ServiceError OrderEntity × DB :=
  match customer_get_by_id db d.customer_id with
  | none => (.error (.entityNotFound "Cliente" d.customer_id), db)
  | some customer =>
    if !customer.is_active then
      (.error (.businessRuleViolation
        "Nao e possivel criar pedido para um cliente inativo."), db)
    else if d.items.isEmpty then
      (.error (.businessRuleViolation "O pedido deve ter pelo menos um item."), db)
    else
      match create_order_tx db customer d with
      | .error e => (.error e, db)
      | .ok (order, db2) => (.ok order, db2)

/-- Embedding of OrderService.get_order (order_service.py, lines 156-161). -/
def get_order (db : DB) (oid : Nat) : Except ServiceError OrderEntity :=
  match order_repo_get_by_id db oid with
  | .error e => .error e
  | .ok none => .error (.entityNotFound "Pedido" oid)
  | .ok (some o) => .ok o

/-- Embedding of the stock-restoration loop of cancel_order
(order_service.py, lines 236-247): items whose product is absent from the
locked snapshots (missing or soft-deleted) are silently skipped; the shared
snapshot list is threaded exactly as in checkAndDeductItems. -/
def restoreItems :
    List ProductEntity → DB → List OrderItemEntity → DB
  | _, db, [] => db
  | pm, db, it :: rest =>
    match pm.find? (fun p => p.id == it.product_id) with
    | none => restoreItems pm db rest
    | some product =>
      let updated := { product with
        stock_quantity := product.stock_quantity + it.quantity }
      restoreItems (pm.map (fun p => if p.id == product.id then updated else p))
        (update_stock db product.id updated.stock_quantity) rest

/-- Embedding of the transaction body of cancel_order (order_service.py,
lines 235-254): lock the products of the order items, restore each item
quantity, then write the cancelled status and its history row. -/
def cancel_order_tx (db : DB) (order : OrderEntity) (oid : Nat)
    (reason : String) : DB :=
  let locked := get_by_ids_for_update db.products
    (order.items.map (fun it => it.product_id))
  let db2 := restoreItems locked db order.items
  (order_repo_update_status db2 oid .cancelled
    (if reason == "" then "Pedido cancelado." else reason) "system").2

/-- Embedding of OrderService.cancel_order (order_service.py, lines 225-262):
load the order, validate the transition to cancelled, then run the atomic
block, and finally re-read the order (outside the transaction). -/
def cancel_order (db : DB) (oid : Nat) (reason : String) :
    Except ServiceError OrderEntity × DB :=
  match get_order db oid with
  | .error e => (.error e, db)
  | .ok order =>
    if !(order.status.can_transition_to .cancelled) then
      (.error (.invalidStateTransition order.status.value
        OrderStatus.cancelled.value), db)
    else
      let db2 := cancel_order_tx db order oid reason
      match get_order db2 oid with
      | .error e => (.error e, db2)
      | .ok o => (.ok o, db2)

/-- Idempotency key time-to-live, 24 hours in seconds
(src/shared/middleware/idempotency.py, line 18). -/
def IDEMPOTENCY_KEY_TTL : Nat := 60 * 60 * 24

/-- One record of the Django cache as used by the idempotency middleware:
the cached JSON payload and status code, with its absolute expiry time. -/
structure CachedEntry where
  key : String
  data : String
  status : Nat
  expires_at : Nat
deriving DecidableEq

/-- Embedding of django.core.cache cache.get at an abstract clock now:
the entry stored under the key, unless it has expired. -/
def cacheGet (c : List CachedEntry) (k : String) (now : Nat) :
    Option (String × Nat) :=
  match c.find? (fun e => e.key == k) with
  | none => none
  | some e => if now < e.expires_at then some (e.data, e.status) else none

/-- Embedding of cache.set with a ttl: overwrite any entry under the key. -/
def cacheSet (c : List CachedEntry) (k : String) (data : String)
    (status : Nat) (ttl : Nat) (now : Nat) : List CachedEntry :=
  { key := k, data := data, status := status, expires_at := now + ttl }
    :: c.filter (fun e => e.key != k)

/-- An incoming HTTP request as seen by the middleware: its method and the
optional Idempotency-Key header. -/
structure Request where
  method : String
  idempotencyKey : Option String
deriving DecidableEq

/-- An HTTP response as seen by the middleware.  jsonContent is the result
of json.loads on the response body: some payload when the body parses as
JSON, none when json.loads would raise. -/
structure Response where
  status : Nat
  jsonContent : Option String
deriving DecidableEq

/-- Embedding of IdempotencyMiddleware.call
(src/shared/middleware/idempotency.py, lines 31-76).  The wrapped operation
get_response is an arbitrary state transformer op over an inner state st;
the middleware consults the cache before running it and caches successful
(2xx) JSON responses under the key with the 24-hour TTL.  Returns the
response, the inner state, and the cache after the call. -/
def idempotency_middleware_call {σ : Type} (op : σ → Response × σ) (st : σ)
    (cache : List CachedEntry) (now : Nat) (req : Request) :
    Response × σ × List CachedEntry :=
  if req.method ≠ "POST" then
    ((op st).1, (op st).2, cache)
  else
    match req.idempotencyKey with
    | none => ((op st).1, (op st).2, cache)
    | some key =>
      match cacheGet cache ("idempotency:" ++ key) now with
      | some (d, s) => ({ status := s, jsonContent := some d }, st, cache)
      | none =>
        let r := (op st).1
        let st2 := (op st).2
        let cache2 :=
          if 200 ≤ r.status ∧ r.status < 300 then
            match r.jsonContent with
            | some d =>
              cacheSet cache ("idempotency:" ++ key) d r.status
                IDEMPOTENCY_KEY_TTL now
            | none => cache
          else cache
        (r, st2, cache2)

/-- Decidable equality for Except values, used to evaluate the embedded
operations at concrete inputs. -/
instance instDecEqExcept {ε α : Type} [DecidableEq ε] [DecidableEq α] :
    DecidableEq (Except ε α) := fun a b =>
  match a, b with
  | .error e1, .error e2 =>
      if h : e1 = e2 then isTrue (by rw [h])
      else isFalse (by intro hh; exact h (by injection hh))
  | .error _, .ok _ => isFalse (by intro hh; exact Except.noConfusion hh)
  | .ok _, .error _ => isFalse (by intro hh; exact Except.noConfusion hh)
  | .ok a1, .ok a2 =>
      if h : a1 = a2 then isTrue (by rw [h])
      else isFalse (by intro hh; exact h (by injection hh))

/-! ## Theorems -/

/-- The six legal edges of the order state machine, as listed by the
specification. -/
def legalEdges : List (OrderStatus × OrderStatus) :=
  [(.pending, .confirmed), (.pending, .cancelled),
   (.confirmed, .separated), (.confirmed, .cancelled),
   (.separated, .shipped), (.shipped, .delivered)]

/-- Claim C2: can_transition_to returns true exactly on the six listed edges
(pending to confirmed or cancelled, confirmed to separated or cancelled,
separated to shipped, shipped to delivered) and false on every other ordered
pair of the six states; in particular pending to shipped is rejected and
delivered and cancelled have no outgoing edges. -/
theorem can_transition_to_table :
    ∀ s t : OrderStatus, s.can_transition_to t = true ↔ (s, t) ∈ legalEdges := by
  decide

/-- Claim C9: the locked batch read returns exactly the requested products
that exist and are not soft-deleted, ordered by ascending product id. -/
theorem get_by_ids_for_update_contract (products : List ProductEntity)
    (ids : List Nat) :
    (∀ p, p ∈ get_by_ids_for_update products ids ↔
      (p ∈ products ∧ p.deleted = false ∧ p.id ∈ ids))
    ∧ List.Sorted prodLE (get_by_ids_for_update products ids) := by
  constructor
  · intro p
    unfold get_by_ids_for_update
    rw [(List.perm_insertionSort prodLE _).mem_iff]
    simp [List.mem_filter, Bool.not_eq_true', List.elem_iff, and_assoc]
    tauto
  · exact List.sorted_insertionSort prodLE _

/-- Fixture: an active customer. -/
def custT : CustomerEntity :=
  { id := 1, name := "Cliente Teste", email := "cliente@test.com",
    cpf_cnpj := "111", is_active := true, deleted := false }

/-- Fixture: an active product with stock 10 and price 100. -/
def prodT : ProductEntity :=
  { id := 1, sku := "SKU-001", name := "Produto 1", description := "",
    price := 100, stock_quantity := 10, is_active := true, deleted := false }

/-- Fixture: a store holding only custT and prodT. -/
def dbT : DB :=
  { products := [prodT], customers := [custT], orders := [],
    order_items := [], order_history := [], next_order_id := 1,
    next_item_id := 1 }

/-- Fixture: a valid create request for 3 units of prodT by custT. -/
def reqT : CreateOrderData :=
  { customer_id := 1, items := [{ product_id := 1, quantity := 3 }],
    notes := "" }

/-- Claim C3 (code bug): on a request that satisfies every hypothesis of the
claim (active customer, non-empty items, existing active product with
sufficient stock) the call does not succeed: the read-back inside
OrderRepository.create passes the keyword order_number to the OrderEntity
dataclass, which has no such field, so Python raises TypeError and the
transaction rolls back, leaving the store unchanged instead of with
deducted stock.  The repository tests (test_criar_pedido,
test_criar_pedido_deduz_estoque) assert the success the claim describes. -/
theorem create_order_valid_request_fails :
    customer_get_by_id dbT 1 = some custT
    ∧ custT.is_active = true
    ∧ prodT.is_active = true
    ∧ (3 : Int) ≤ prodT.stock_quantity
    ∧ (create_order dbT reqT).1 =
        .error (.typeError "OrderEntity got an unexpected keyword argument order_number")
    ∧ (create_order dbT reqT).2 = dbT := by
  decide

/-- Fixture: the store as it would look after a successful creation of reqT:
stock deducted to 7, one pending order with one item row. -/
def dbPend : DB :=
  { products := [{ prodT with stock_quantity := 7 }], customers := [custT],
    orders := [{ id := 1, order_number := "PED-1", customer_id := 1,
                 status := .pending, notes := "", deleted := false }],
    order_items := [{ id := 1, order_id := 1, product_id := 1,
                      product_sku := "SKU-001", product_name := "Produto 1",
                      quantity := 3, unit_price := 100 }],
    order_history := [{ order_id := 1, from_status := "",
                        to_status := "pending", changed_by := "system",
                        notes := "Pedido criado." }],
    next_order_id := 2, next_item_id := 2 }

/-- Claim C4 (code bug): cancelling a freshly created pending order does not
restore stock: cancel_order first re-reads the order through
OrderRepository.get_by_id, whose _to_entity passes the keyword order_number
to the OrderEntity dataclass, so the call raises TypeError before reaching
the restoration loop and the stock stays at 7 instead of returning to 10
(the repository test test_cancelar_pedido_pendente asserts the
restoration the claim describes). -/
theorem cancel_order_pending_fails :
    (cancel_order dbPend 1 "").1 =
      .error (.typeError "OrderEntity got an unexpected keyword argument order_number")
    ∧ (cancel_order dbPend 1 "").2 = dbPend
    ∧ dbPend.products.map (fun p => p.stock_quantity) = [7] := by
  decide

/-- Fixture: same store as dbPend but with the order already shipped. -/
def dbShip : DB :=
  { dbPend with
    orders := [{ id := 1, order_number := "PED-1", customer_id := 1,
                 status := .shipped, notes := "", deleted := false }] }

/-- Claim C8 (code bug): cancelling a shipped order does abort without
touching stock, but not with the InvalidStateTransition error the claim
names: the initial order read raises TypeError (the order_number keyword
mismatch) before the state machine is ever consulted.  The repository test
test_cancelar_pedido_enviado_invalido asserts the 422 invalid-transition
rejection the claim describes. -/
theorem cancel_order_shipped_wrong_error :
    (cancel_order dbShip 1 "").1 =
      .error (.typeError "OrderEntity got an unexpected keyword argument order_number")
    ∧ (∀ c t, (cancel_order dbShip 1 "").1 ≠
        .error (.invalidStateTransition c t))
    ∧ (cancel_order dbShip 1 "").2 = dbShip := by
  refine ⟨by decide, ?_, by decide⟩
  intro c t hct
  rw [show (cancel_order dbShip 1 "").1 =
      .error (.typeError "OrderEntity got an unexpected keyword argument order_number")
    from by decide] at hct
  simp at hct

/-- Claim C6 (code bug): the record-store create followed by get-by-id never
yields the persisted Order entity: _to_entity passes the keyword
order_number, which is not among the fields of the OrderEntity dataclass,
so the read-back raises TypeError instead of returning the entity. -/
theorem order_repo_create_read_back_fails :
    (("order_number" ∈ order_repo_to_entity_kwargs)
      ∧ "order_number" ∉ order_entity_field_names)
    ∧ order_repo_create dbT
        { id := none, customer_id := 1, customer_name := "Cliente Teste",
          status := .pending,
          items := [{ id := none, order_id := none, product_id := 1,
                      product_sku := "SKU-001", product_name := "Produto 1",
                      quantity := 3, unit_price := 100 }],
          notes := "", deleted := false } =
      .error (.typeError "OrderEntity got an unexpected keyword argument order_number") := by
  decide

/-- Fixture: a store whose only product (id 1) exists but is inactive;
product id 2 does not exist at all. -/
def dbInactive : DB :=
  { dbT with products := [{ prodT with is_active := false }] }

/-- Fixture: a request whose first item references the inactive product 1
and whose second item references the missing product 2. -/
def reqTwoItems : CreateOrderData :=
  { customer_id := 1,
    items := [{ product_id := 1, quantity := 1 },
              { product_id := 2, quantity := 1 }],
    notes := "" }

/-- Claim C7 counterexample: the checks are NOT run per item in caller
order.  In reqTwoItems the first failing check of the first failing item is
the active check of item 1 (its product exists but is inactive), so the
claim predicts BusinessRuleViolation; the code instead runs a separate
existence pass over ALL items first (order_service.py lines 86-90) and
raises EntityNotFound for item 2. -/
theorem create_order_checks_not_interleaved :
    (create_order dbInactive reqTwoItems).1 =
      .error (.entityNotFound "Produto" 2)
    ∧ (create_order dbInactive reqTwoItems).1 ≠
      .error (.businessRuleViolation "O produto SKU-001 esta inativo.")
    ∧ ((lockedFor dbInactive reqTwoItems).find?
        (fun p => p.id == 1)).map (fun p => p.is_active) = some false := by
  decide

/-- Claim C5 counterexample: a guarded POST carrying a fresh idempotency key
whose operation succeeds (status 201) but whose body is not JSON is NOT
stored: the cache stays empty after the call, although the claim says every
successful result is stored under the key before being returned. -/
def opNonJson : Nat → Response × Nat :=
  fun n => ({ status := 201, jsonContent := none }, n + 1)

/-- Fixture: a guarded POST request carrying idempotency key k. -/
def reqPostK : Request := { method := "POST", idempotencyKey := some "k" }

/-- Claim C5 counterexample (see opNonJson): operation invoked and
successful, yet nothing is cached under the key. -/
theorem idempotency_success_not_always_cached :
    (idempotency_middleware_call opNonJson 0 [] 0 reqPostK).1.status = 201
    ∧ (idempotency_middleware_call opNonJson 0 [] 0 reqPostK).2.1 = 1
    ∧ (idempotency_middleware_call opNonJson 0 [] 0 reqPostK).2.2 = [] := by
  decide

/-- The Idempotency Gate contract as amended: on a guarded (POST) request,
no key means the operation runs directly with the cache untouched; an
unexpired cached entry is returned verbatim without running the operation;
otherwise the operation runs and its result is stored under the key with
the 24-hour TTL only when the response status is 2xx and its body parses as
JSON - a successful non-JSON response is returned uncached. -/
def gateSpecAmended {σ : Type} (op : σ → Response × σ) (st : σ)
    (cache : List CachedEntry) (now : Nat) (req : Request) :
    Response × σ × List CachedEntry :=
  match req.idempotencyKey with
  | none => ((op st).1, (op st).2, cache)
  | some key =>
    match cacheGet cache ("idempotency:" ++ key) now with
    | some (d, s) => ({ status := s, jsonContent := some d }, st, cache)
    | none =>
      let r := (op st).1
      (r, (op st).2,
        if 200 ≤ r.status ∧ r.status < 300 then
          match r.jsonContent with
          | some d =>
            cacheSet cache ("idempotency:" ++ key) d r.status
              IDEMPOTENCY_KEY_TTL now
          | none => cache
        else cache)

/-- Claim C5 (amended): on every POST request the middleware realises
exactly the three-branch gate contract gateSpecAmended. -/
theorem idempotency_gate_branches {σ : Type} (op : σ → Response × σ)
    (st : σ) (cache : List CachedEntry) (now : Nat) (req : Request)
    (hm : req.method = "POST") :
    idempotency_middleware_call op st cache now req =
      gateSpecAmended op st cache now req := by
  unfold idempotency_middleware_call gateSpecAmended
  rw [hm]
  simp

/-- Witness for idempotency_gate_branches at a concrete POST request. -/
theorem idempotency_gate_branches_witness :
    reqPostK.method = "POST"
    ∧ idempotency_middleware_call opNonJson 0 [] 0 reqPostK =
        gateSpecAmended opNonJson 0 [] 0 reqPostK :=
  ⟨rfl, idempotency_gate_branches opNonJson 0 [] 0 reqPostK rfl⟩

/-- Fixture: an operation that mutates the inner state and returns a JSON
201 response, standing for a mutating non-POST handler. -/
def opMutate : Nat → Response × Nat :=
  fun n => ({ status := 201, jsonContent := some "fresh" }, n + 1)

/-- Fixture: a mutating PATCH request carrying idempotency key k. -/
def reqPatchK : Request := { method := "PATCH", idempotencyKey := some "k" }

/-- Fixture: a cache already holding an unexpired entry for key k. -/
def cacheK : List CachedEntry :=
  [{ key := "idempotency:k", data := "cached", status := 200,
     expires_at := 100 }]

/-- Claim C10 counterexample: a mutating PATCH request carrying idempotency
key k, with an unexpired cached result for k present, is not deduplicated:
the middleware only guards POST (idempotency.py lines 32-34), so the
operation runs again (inner state advances to 1), the fresh response is
returned instead of the cached one, and the cache is not consulted. -/
theorem idempotency_patch_not_deduplicated :
    cacheGet cacheK "idempotency:k" 0 = some ("cached", 200)
    ∧ idempotency_middleware_call opMutate 0 cacheK 0 reqPatchK =
        ({ status := 201, jsonContent := some "fresh" }, 1, cacheK)
    ∧ ({ status := 201, jsonContent := some "fresh" } : Response) ≠
        { status := 200, jsonContent := some "cached" } := by
  decide

/-- Claim C10 (amended): the gate covers only POST requests; any request
with a different HTTP method runs the operation directly and leaves the
cache untouched, even when it carries an idempotency key. -/
theorem idempotency_post_only {σ : Type} (op : σ → Response × σ) (st : σ)
    (cache : List CachedEntry) (now : Nat) (req : Request)
    (hm : req.method ≠ "POST") :
    idempotency_middleware_call op st cache now req =
      ((op st).1, (op st).2, cache) := by
  unfold idempotency_middleware_call
  rw [if_pos hm]

/-- Witness for idempotency_post_only at a concrete PATCH request. -/
theorem idempotency_post_only_witness :
    reqPatchK.method ≠ "POST"
    ∧ idempotency_middleware_call opMutate 0 cacheK 5 reqPatchK =
        ((opMutate 0).1, (opMutate 0).2, cacheK) :=
  ⟨by decide, idempotency_post_only opMutate 0 cacheK 5 reqPatchK (by decide)⟩

/-- Test from the claim: the item fails one of the three per-item checks
against the locked snapshots it references (missing, inactive, or available
stock below the requested quantity). -/
def itemFailsB (pm : List ProductEntity) (i : ItemData) : Bool :=
  match pm.find? (fun r => r.id == i.product_id) with
  | none => true
  | some p => !p.is_active || decide (p.stock_quantity < i.quantity)

/-- The error shapes produced by the active and stock checks of the
check-and-deduct loop. -/
def IsStockCheckError (e : ServiceError) : Prop :=
  (∃ sku, e = .businessRuleViolation ("O produto " ++ sku ++ " esta inativo."))
  ∨ (∃ sku r a, e = .insufficientStock sku r a)

/-- The error shapes corresponding to the three per-item checks of
create_order. -/
def IsItemCheckError (e : ServiceError) : Prop :=
  (∃ pid, e = .entityNotFound "Produto" pid) ∨ IsStockCheckError e

/-- Invariant of the check-and-deduct loop: every product visible in the
original locked snapshot list pm is still visible in the current snapshot
list pmCur with the same id, sku and active flag and with at most the
original stock (the loop only ever lowers quantities). -/
def LookupLE (pm pmCur : List ProductEntity) : Prop :=
  ∀ x p, pm.find? (fun r => r.id == x) = some p →
    ∃ q, pmCur.find? (fun r => r.id == x) = some q ∧
      q.id = p.id ∧ q.sku = p.sku ∧ q.is_active = p.is_active ∧
      q.stock_quantity ≤ p.stock_quantity

/-- LookupLE is reflexive. -/
theorem lookupLE_refl (pm : List ProductEntity) : LookupLE pm pm :=
  fun _ p h => ⟨p, h, rfl, rfl, rfl, le_refl _⟩

/-- Effect on find? of replacing every entry whose id is c by u (where
u.id = c): a lookup that found q now finds u when q has id c, and still
finds q otherwise. -/
theorem find?_update_some (u : ProductEntity) (c : Nat) (hu : u.id = c) :
    ∀ (pm : List ProductEntity) (x : Nat) (q : ProductEntity),
      pm.find? (fun r => r.id == x) = some q →
      (pm.map (fun r => if r.id == c then u else r)).find?
          (fun r => r.id == x) = some (if q.id == c then u else q) := by
  intro pm
  induction pm with
  | nil => intro x q h; exact absurd h (by simp)
  | cons a t ih =>
    intro x q h
    by_cases hax : (a.id == x) = true
    · rw [List.find?_cons_of_pos t hax] at h
      have hqa : a = q := Option.some.inj h
      subst hqa
      rw [List.map_cons]
      by_cases hac : (a.id == c) = true
      · have hac' : a.id = c := by simpa using hac
        have h1 : ((if (a.id == c) = true then u else a).id == x) = true := by
          rw [if_pos hac, hu, ← hac']
          exact hax
        rw [List.find?_cons, h1]
      · have h1 : ((if (a.id == c) = true then u else a).id == x) = true := by
          rw [if_neg hac]
          exact hax
        rw [List.find?_cons, h1]
    · rw [List.find?_cons_of_neg t hax] at h
      rw [List.map_cons]
      have h1 : ((if (a.id == c) = true then u else a).id == x) = false := by
        by_cases hac : (a.id == c) = true
        · have hac' : a.id = c := by simpa using hac
          rw [if_pos hac, hu, ← hac']
          simpa using hax
        · rw [if_neg hac]
          simpa using hax
      rw [List.find?_cons, h1]
      exact ih x q h

/-- LookupLE is preserved when the snapshot found at some id is replaced by
a version with the same id, sku and active flag and no more stock. -/
theorem lookupLE_update (pm pmCur : List ProductEntity)
    (h : LookupLE pm pmCur) (x : Nat) (q : ProductEntity)
    (hq : pmCur.find? (fun r => r.id == x) = some q)
    (u : ProductEntity) (hid : u.id = q.id) (hsku : u.sku = q.sku)
    (hact : u.is_active = q.is_active)
    (hst : u.stock_quantity ≤ q.stock_quantity) :
    LookupLE pm (pmCur.map (fun r => if r.id == q.id then u else r)) := by
  intro y p hy
  obtain ⟨q', hq', hid', hsku', hact', hst'⟩ := h y p hy
  have hnew := find?_update_some u q.id hid pmCur y q' hq'
  by_cases hc : (q'.id == q.id) = true
  · rw [if_pos hc] at hnew
    have hqx' : q.id = x := by simpa using List.find?_some hq
    have hq'y' : q'.id = y := by simpa using List.find?_some hq'
    have hcc : q'.id = q.id := by simpa using hc
    have hyx : y = x := by rw [← hq'y', hcc, hqx']
    have hqq' : q' = q := by
      rw [hyx] at hq'
      rw [hq'] at hq
      exact Option.some.inj hq
    refine ⟨u, hnew, ?_, ?_, ?_, ?_⟩
    · rw [hid, ← hqq']
      exact hid'
    · rw [hsku, ← hqq']
      exact hsku'
    · rw [hact, ← hqq']
      exact hact'
    · have hu : u.stock_quantity ≤ q'.stock_quantity := by
        rw [hqq']
        exact hst
      exact le_trans hu hst'
  · rw [if_neg hc] at hnew
    exact ⟨q', hnew, hid', hsku', hact', hst'⟩

/-- Every error of the existence loop is an EntityNotFound for a product. -/
theorem checkProductsExist_error_shape (pm : List ProductEntity) :
    ∀ (items : List ItemData) (e : ServiceError),
      checkProductsExist pm items = .error e →
      ∃ pid, e = .entityNotFound "Produto" pid := by
  intro items
  induction items with
  | nil => intro e h; exact absurd h (by simp [checkProductsExist])
  | cons j rest ih =>
    intro e h
    simp only [checkProductsExist] at h
    by_cases hs : (pm.find? (fun p => p.id == j.product_id)).isSome = true
    · rw [if_pos hs] at h
      exact ih e h
    · rw [if_neg hs] at h
      exact ⟨j.product_id, (Except.error.inj h).symm⟩

/-- When the existence loop passes, every item has a locked snapshot. -/
theorem checkProductsExist_ok_isSome (pm : List ProductEntity) :
    ∀ (items : List ItemData), checkProductsExist pm items = .ok () →
      ∀ i ∈ items, (pm.find? (fun r => r.id == i.product_id)).isSome = true := by
  intro items
  induction items with
  | nil => intro _ i hi; exact absurd hi (List.not_mem_nil i)
  | cons j rest ih =>
    intro h i hi
    simp only [checkProductsExist] at h
    by_cases hs : (pm.find? (fun p => p.id == j.product_id)).isSome = true
    · rw [if_pos hs] at h
      rcases List.mem_cons.mp hi with rfl | hmem
      · exact hs
      · exact ih h i hmem
    · rw [if_neg hs] at h
      exact absurd h (by simp)

/-- When every item has a locked snapshot, the existence loop passes. -/
theorem checkProductsExist_ok_of_all (pm : List ProductEntity) :
    ∀ (items : List ItemData),
      (∀ i ∈ items, (pm.find? (fun r => r.id == i.product_id)).isSome = true) →
      checkProductsExist pm items = .ok () := by
  intro items
  induction items with
  | nil => intro _; rfl
  | cons j rest ih =>
    intro hall
    simp only [checkProductsExist]
    rw [if_pos (hall j (List.mem_cons_self j rest))]
    exact ih (fun i hi => hall i (List.mem_cons_of_mem j hi))

/-- The existence loop reports the first item (in caller order) whose
product has no locked snapshot. -/
theorem checkProductsExist_first_missing (pm : List ProductEntity) :
    ∀ (items : List ItemData) (i0 : ItemData),
      items.find?
          (fun i => !(pm.find? (fun r => r.id == i.product_id)).isSome)
        = some i0 →
      checkProductsExist pm items =
        .error (.entityNotFound "Produto" i0.product_id) := by
  intro items
  induction items with
  | nil => intro i0 h; exact absurd h (by simp)
  | cons j rest ih =>
    intro i0 h
    simp only [checkProductsExist]
    by_cases hs : (pm.find? (fun p => p.id == j.product_id)).isSome = true
    · rw [if_pos hs]
      have hpred :
          (!(pm.find? (fun r => r.id == j.product_id)).isSome) = false := by
        rw [hs]
        rfl
      rw [List.find?_cons, hpred] at h
      exact ih i0 h
    · rw [if_neg hs]
      have hs' : (pm.find? (fun r => r.id == j.product_id)).isSome = false := by
        simpa using hs
      have hpred :
          (!(pm.find? (fun r => r.id == j.product_id)).isSome) = true := by
        rw [hs']
        rfl
      rw [List.find?_cons, hpred] at h
      rw [← Option.some.inj h]

/-- When some item of the request fails the inactive or stock check against
the original locked snapshots, the check-and-deduct loop fails with the
matching error shape, for any current snapshot state related by LookupLE
(the loop never raises the stock of a product, so a shortfall against the
original snapshots is still a shortfall when the item is reached). -/
theorem checkAndDeduct_error_of_fail (pm : List ProductEntity) :
    ∀ (items : List ItemData) (pmCur : List ProductEntity) (db : DB),
      LookupLE pm pmCur →
      (∀ i ∈ items, 1 ≤ i.quantity) →
      (∀ i ∈ items, (pm.find? (fun r => r.id == i.product_id)).isSome = true) →
      (∃ i ∈ items, ∃ p,
        pm.find? (fun r => r.id == i.product_id) = some p ∧
        (p.is_active = false ∨ p.stock_quantity < i.quantity)) →
      ∃ e, checkAndDeductItems pmCur db items = .error e
        ∧ IsStockCheckError e := by
  intro items
  induction items with
  | nil =>
    intro pmCur db _ _ _ hfail
    obtain ⟨i, hi, _⟩ := hfail
    exact absurd hi (List.not_mem_nil i)
  | cons i rest ih =>
    intro pmCur db hlook hq hex hfail
    obtain ⟨p0, hp0⟩ :=
      Option.isSome_iff_exists.mp (hex i (List.mem_cons_self i rest))
    obtain ⟨q, hqfind, hqid, hqsku, hqact, hqst⟩ := hlook i.product_id p0 hp0
    simp only [checkAndDeductItems]
    simp only [hqfind]
    by_cases hact : q.is_active = true
    · have h1 : ¬ ((!q.is_active) = true) := by simp [hact]
      by_cases hstk : q.stock_quantity < i.quantity
      · rw [if_neg h1, if_pos hstk]
        exact ⟨.insufficientStock q.sku i.quantity q.stock_quantity, rfl,
          Or.inr ⟨q.sku, i.quantity, q.stock_quantity, rfl⟩⟩
      · rw [if_neg h1, if_neg hstk]
        have hq1 : (1 : Int) ≤ i.quantity := hq i (List.mem_cons_self i rest)
        have hstle :
            ({ q with stock_quantity := q.stock_quantity - i.quantity }
              : ProductEntity).stock_quantity ≤ q.stock_quantity := by
          simp only []
          omega
        have hlook2 := lookupLE_update pm pmCur hlook i.product_id q hqfind
          { q with stock_quantity := q.stock_quantity - i.quantity }
          rfl rfl rfl hstle
        have hq2 : ∀ j ∈ rest, (1 : Int) ≤ j.quantity :=
          fun j hj => hq j (List.mem_cons_of_mem i hj)
        have hex2 : ∀ j ∈ rest,
            (pm.find? (fun r => r.id == j.product_id)).isSome = true :=
          fun j hj => hex j (List.mem_cons_of_mem i hj)
        have hfail2 : ∃ j ∈ rest, ∃ p,
            pm.find? (fun r => r.id == j.product_id) = some p ∧
            (p.is_active = false ∨ p.stock_quantity < j.quantity) := by
          obtain ⟨j, hj, pj, hpj, hfj⟩ := hfail
          rcases List.mem_cons.mp hj with rfl | hmem
          · exfalso
            rw [hp0] at hpj
            have hpj' : p0 = pj := Option.some.inj hpj
            rcases hfj with hinact | hshort
            · rw [← hpj'] at hinact
              rw [← hqact] at hinact
              rw [hact] at hinact
              exact Bool.true_eq_false.mp hinact
            · rw [← hpj'] at hshort
              omega
          · exact ⟨j, hmem, pj, hpj, hfj⟩
        obtain ⟨e, he, hsh⟩ :=
          ih (pmCur.map (fun p => if p.id == q.id then
              { q with stock_quantity := q.stock_quantity - i.quantity }
            else p))
            (update_stock db q.id (q.stock_quantity - i.quantity))
            hlook2 hq2 hex2 hfail2
        rw [he]
        exact ⟨e, rfl, hsh⟩
    · have hact' : q.is_active = false := by simpa using hact
      have h1 : (!q.is_active) = true := by rw [hact']; rfl
      rw [if_pos h1]
      exact ⟨.businessRuleViolation ("O produto " ++ q.sku ++ " esta inativo."),
        rfl, Or.inl ⟨q.sku, rfl⟩⟩

/-- When the customer checks pass, the items are non-empty, and the
transaction body fails, create_order surfaces the error and returns the
pre-call state (transaction.atomic rollback). -/
theorem create_order_eq_of_tx_error (db : DB) (d : CreateOrderData)
    (c : CustomerEntity) (e : ServiceError)
    (hc : customer_get_by_id db d.customer_id = some c)
    (hact : c.is_active = true)
    (hne : d.items.isEmpty = false)
    (he : create_order_tx db c d = .error e) :
    create_order db d = (.error e, db) := by
  simp [create_order, hc, hact, hne, he]

/-- Claim C1: all-or-nothing stock reservation.  For any request whose
customer resolves and is active, whose quantities are at least 1 (as the
input serializer guarantees), and in which at least one item fails a check
against the locked snapshots (product missing, product inactive, or
available stock below the requested quantity), create_order fails with an
error of the corresponding item-check shape and the returned state is
exactly the pre-call state: every stock quantity is unchanged and no order,
item or history row exists for the attempt. -/
theorem create_order_all_or_nothing (db : DB) (d : CreateOrderData)
    (c : CustomerEntity)
    (hc : customer_get_by_id db d.customer_id = some c)
    (hact : c.is_active = true)
    (hq : ∀ i ∈ d.items, (1 : Int) ≤ i.quantity)
    (hfail : d.items.any (fun i => itemFailsB (lockedFor db d) i) = true) :
    (∃ e, (create_order db d).1 = .error e ∧ IsItemCheckError e)
    ∧ (create_order db d).2 = db := by
  have hne : d.items.isEmpty = false := by
    cases hitems : d.items with
    | nil => rw [hitems] at hfail; simp at hfail
    | cons a t => simp [hitems]
  have htx : ∃ e, create_order_tx db c d = .error e ∧ IsItemCheckError e := by
    cases hchk : checkProductsExist (lockedFor db d) d.items with
    | error e =>
      obtain ⟨pid, hpid⟩ := checkProductsExist_error_shape _ _ _ hchk
      refine ⟨e, ?_, Or.inl ⟨pid, hpid⟩⟩
      simp only [create_order_tx]
      simp only [hchk]
    | ok u =>
      cases u
      have hex := checkProductsExist_ok_isSome (lockedFor db d) d.items hchk
      have hfail' : ∃ i ∈ d.items, ∃ p,
          (lockedFor db d).find? (fun r => r.id == i.product_id) = some p ∧
          (p.is_active = false ∨ p.stock_quantity < i.quantity) := by
        obtain ⟨i, hi, hfi⟩ := List.any_eq_true.mp hfail
        obtain ⟨p, hp⟩ := Option.isSome_iff_exists.mp (hex i hi)
        refine ⟨i, hi, p, hp, ?_⟩
        unfold itemFailsB at hfi
        simp only [hp] at hfi
        rcases (Bool.or_eq_true _ _).mp hfi with h | h
        · exact Or.inl (by simpa using h)
        · exact Or.inr (of_decide_eq_true h)
      obtain ⟨e, he, hsh⟩ := checkAndDeduct_error_of_fail (lockedFor db d)
        d.items (lockedFor db d) db (lookupLE_refl _) hq hex hfail'
      refine ⟨e, ?_, Or.inr hsh⟩
      simp only [create_order_tx]
      simp only [hchk]
      simp only [he]
  obtain ⟨e, he, hsh⟩ := htx
  have hco := create_order_eq_of_tx_error db d c e hc hact hne he
  exact ⟨⟨e, by rw [hco], hsh⟩, by rw [hco]⟩

/-- Fixture: product A, 20 in stock. -/
def prodA : ProductEntity :=
  { id := 1, sku := "A", name := "Produto A", description := "",
    price := 10, stock_quantity := 20, is_active := true, deleted := false }

/-- Fixture: product B, 30 in stock. -/
def prodB : ProductEntity :=
  { id := 2, sku := "B", name := "Produto B", description := "",
    price := 10, stock_quantity := 30, is_active := true, deleted := false }

/-- Fixture: product C, only 2 in stock. -/
def prodC : ProductEntity :=
  { id := 3, sku := "C", name := "Produto C", description := "",
    price := 10, stock_quantity := 2, is_active := true, deleted := false }

/-- Fixture: the specification example store, stocks A:20 B:30 C:2. -/
def dbABC : DB :=
  { products := [prodA, prodB, prodC], customers := [custT], orders := [],
    order_items := [], order_history := [], next_order_id := 1,
    next_item_id := 1 }

/-- Fixture: the specification example request, quantities A:5 B:10 C:15. -/
def reqABC : CreateOrderData :=
  { customer_id := 1,
    items := [{ product_id := 1, quantity := 5 },
              { product_id := 2, quantity := 10 },
              { product_id := 3, quantity := 15 }],
    notes := "" }

/-- Witness for create_order_all_or_nothing at the specification example
(stocks 20/30/2, requests 5/10/15: item C lacks stock, the call fails and
the store is untouched). -/
theorem create_order_all_or_nothing_witness :
    (customer_get_by_id dbABC 1 = some custT
      ∧ custT.is_active = true
      ∧ (∀ i ∈ reqABC.items, (1 : Int) ≤ i.quantity)
      ∧ reqABC.items.any (fun i => itemFailsB (lockedFor dbABC reqABC) i) = true)
    ∧ ((∃ e, (create_order dbABC reqABC).1 = .error e ∧ IsItemCheckError e)
      ∧ (create_order dbABC reqABC).2 = dbABC) :=
  ⟨⟨by decide, by decide, by decide, by decide⟩,
   create_order_all_or_nothing dbABC reqABC custT (by decide) (by decide)
     (by decide) (by decide)⟩

/-- Claim C7 (amended): create_order validates in two phases rather than
per item.  First, existence is checked for ALL items in caller order, and
the first item whose product has no locked snapshot determines an
EntityNotFound error, even when an earlier item would fail its active or
stock check.  Only when every item's product exists does the second phase
run, checking each item in caller order (active, then stock against the
running quantities); a failure there yields the inactive
BusinessRuleViolation or InsufficientStock shape, never EntityNotFound. -/
theorem create_order_validation_phases (db : DB) (d : CreateOrderData)
    (c : CustomerEntity)
    (hc : customer_get_by_id db d.customer_id = some c)
    (hact : c.is_active = true)
    (hq : ∀ i ∈ d.items, (1 : Int) ≤ i.quantity) :
    (∀ i0, d.items.find?
        (fun i => !((lockedFor db d).find?
          (fun r => r.id == i.product_id)).isSome) = some i0 →
      (create_order db d).1 = .error (.entityNotFound "Produto" i0.product_id))
    ∧ ((∀ i ∈ d.items,
          ((lockedFor db d).find? (fun r => r.id == i.product_id)).isSome = true) →
        d.items.any (fun i => itemFailsB (lockedFor db d) i) = true →
        ∃ e, (create_order db d).1 = .error e ∧ IsStockCheckError e) := by
  constructor
  · intro i0 h0
    have hne : d.items.isEmpty = false := by
      cases hitems : d.items with
      | nil => rw [hitems] at h0; simp at h0
      | cons a t => simp [hitems]
    have htx : create_order_tx db c d =
        .error (.entityNotFound "Produto" i0.product_id) := by
      simp only [create_order_tx]
      simp only [checkProductsExist_first_missing (lockedFor db d) d.items i0 h0]
    rw [create_order_eq_of_tx_error db d c _ hc hact hne htx]
  · intro hex hfail
    have hne : d.items.isEmpty = false := by
      cases hitems : d.items with
      | nil => rw [hitems] at hfail; simp at hfail
      | cons a t => simp [hitems]
    have hchk := checkProductsExist_ok_of_all (lockedFor db d) d.items hex
    have hfail' : ∃ i ∈ d.items, ∃ p,
        (lockedFor db d).find? (fun r => r.id == i.product_id) = some p ∧
        (p.is_active = false ∨ p.stock_quantity < i.quantity) := by
      obtain ⟨i, hi, hfi⟩ := List.any_eq_true.mp hfail
      obtain ⟨p, hp⟩ := Option.isSome_iff_exists.mp (hex i hi)
      refine ⟨i, hi, p, hp, ?_⟩
      unfold itemFailsB at hfi
      simp only [hp] at hfi
      rcases (Bool.or_eq_true _ _).mp hfi with h | h
      · exact Or.inl (by simpa using h)
      · exact Or.inr (of_decide_eq_true h)
    obtain ⟨e, he, hsh⟩ := checkAndDeduct_error_of_fail (lockedFor db d)
      d.items (lockedFor db d) db (lookupLE_refl _) hq hex hfail'
    have htx : create_order_tx db c d = .error e := by
      simp only [create_order_tx]
      simp only [hchk]
      simp only [he]
    refine ⟨e, ?_, hsh⟩
    rw [create_order_eq_of_tx_error db d c e hc hact hne htx]

/-- Witness for create_order_validation_phases at dbInactive/reqTwoItems:
the hypotheses hold there, and the first phase-1 trigger (item 2 has no
snapshot) is the counterexample situation. -/
theorem create_order_validation_phases_witness :
    (customer_get_by_id dbInactive 1 = some custT
      ∧ custT.is_active = true
      ∧ (∀ i ∈ reqTwoItems.items, (1 : Int) ≤ i.quantity))
    ∧ ((∀ i0, reqTwoItems.items.find?
          (fun i => !((lockedFor dbInactive reqTwoItems).find?
            (fun r => r.id == i.product_id)).isSome) = some i0 →
        (create_order dbInactive reqTwoItems).1 =
          .error (.entityNotFound "Produto" i0.product_id))
      ∧ ((∀ i ∈ reqTwoItems.items,
            ((lockedFor dbInactive reqTwoItems).find?
              (fun r => r.id == i.product_id)).isSome = true) →
          reqTwoItems.items.any
            (fun i => itemFailsB (lockedFor dbInactive reqTwoItems) i) = true →
          ∃ e, (create_order dbInactive reqTwoItems).1 = .error e
            ∧ IsStockCheckError e)) :=
  ⟨⟨by decide, by decide, by decide⟩,
   create_order_validation_phases dbInactive reqTwoItems custT (by decide)
     (by decide) (by decide)⟩
